import Mathlib

/-!
Shallow embedding of `src/weather_monitor.py` (prime-severe-weather-monitor).

Python floats are modelled as rationals (`ℚ`); the decision logic of the
program uses only comparisons, additions and divisions by constants, so the
rational model is exact on every input considered here.  Fallible code
(network fetches, exceptions) is modelled with `Except String`: each provider
call's outcome for a site is an input of the model (`Providers`), because the
real fetches are the only source of nondeterminism.
-/

namespace WeatherMonitor

/-- Threshold configuration.  In the source these are module-level constants
read from the environment (`SNOW_HEADSUP_IN`, ... lines 44-50); we model them
as an explicit record so theorems can quantify over configurations. -/
structure Thresholds where
  snowHeadsup : ℚ
  snowWarning : ℚ
  snowCritical : ℚ
  iceHeadsup : ℚ
  iceWarning : ℚ
  iceCritical : ℚ
deriving DecidableEq, Repr

/-- The default thresholds from lines 44-50:
snow 2.0 / 4.0 / 8.0 in, ice 0.05 / 0.10 / 0.25 in. -/
def defaultThresholds : Thresholds :=
  { snowHeadsup := 2, snowWarning := 4, snowCritical := 8
    iceHeadsup := 1/20, iceWarning := 1/10, iceCritical := 1/4 }

/-- `classify_risk` (lines 236-249), translated clause for clause.  The
Python returns a pair of strings `(risk_level, risk_reason)`. -/
def classify_risk (cfg : Thresholds) (snow_in ice_in : ℚ) (has_alerts : Bool) :
    String × String :=
  if has_alerts then
    ("WARNING", "Active official alert(s) present")
  else if snow_in ≥ cfg.snowCritical ∨ ice_in ≥ cfg.iceCritical then
    ("CRITICAL", "Forecast accumulation exceeds critical threshold")
  else if snow_in ≥ cfg.snowWarning ∨ ice_in ≥ cfg.iceWarning then
    ("WARNING", "Forecast accumulation exceeds warning threshold")
  else if snow_in ≥ cfg.snowHeadsup ∨ ice_in ≥ cfg.iceHeadsup then
    ("HEADSUP", "Forecast accumulation exceeds heads-up threshold")
  else
    ("NONE", "No alerts and accumulation below thresholds")

/-- Numeric rank of a risk-level string realising the total order
`NONE < HEADSUP < WARNING < CRITICAL` used for sorting and summaries. -/
def riskRank (lvl : String) : ℕ :=
  if lvl = "CRITICAL" then 3
  else if lvl = "WARNING" then 2
  else if lvl = "HEADSUP" then 1
  else 0

/-! ## Character-level string operations

`String.toLower`, `String.trim` and `String.splitOn` from the Lean core
library do not reduce inside the kernel, so the Python string operations the
program uses (`str.lower`, `str.strip`, `in`, `str.split`) are modelled
directly on `List Char`. -/

/-- Python `str.lower()` (ASCII-faithful). -/
def lowerChars (cs : List Char) : List Char := cs.map Char.toLower

/-- Python `str.strip()`: remove leading and trailing whitespace. -/
def trimChars (cs : List Char) : List Char :=
  ((cs.dropWhile Char.isWhitespace).reverse.dropWhile Char.isWhitespace).reverse

/-- Is `pat` a prefix of `s`? (helper for the substring test). -/
def charsPrefixOf : List Char → List Char → Bool
  | [], _ => true
  | _ :: _, [] => false
  | p :: ps, c :: cs => p == c && charsPrefixOf ps cs

/-- Python `pat in s` on character lists: does `pat` occur contiguously in
`s`? -/
def charsSubOf (pat : List Char) : List Char → Bool
  | [] => charsPrefixOf pat []
  | c :: rest => charsPrefixOf pat (c :: rest) || charsSubOf pat rest

/-- The fetch-failure marker test used on line 640:
`"fetch failed" in a.title.lower()`. -/
def containsFetchFailed (t : String) : Bool :=
  charsSubOf "fetch failed".data (lowerChars t.data)

/-! ## A model of Python `float(x)` on decoded JSON elements -/

/-- A decoded JSON element as it can appear inside a provider's daily array.
Array and object elements carry no payload because `float` rejects both
regardless of their contents. -/
inductive JVal
  | jnull
  | jbool (b : Bool)
  | jnum (q : ℚ)
  | jstr (s : String)
  | jarr
  | jobj
deriving DecidableEq, Repr

/-- Are all characters decimal digits? -/
def allDigits (cs : List Char) : Bool := cs.all Char.isDigit

/-- The natural number denoted by a digit string. -/
def natOfDigits (cs : List Char) : ℕ :=
  cs.foldl (fun n c => n * 10 + (c.toNat - 48)) 0

/-- Split a character list at every occurrence of a dot. -/
def splitOnDot : List Char → List (List Char)
  | [] => [[]]
  | c :: cs =>
    if c = '.' then [] :: splitOnDot cs
    else
      match splitOnDot cs with
      | [] => [[c]]
      | p :: ps => (c :: p) :: ps

/-- Models Python `float(s)` on a string: surrounding whitespace is
stripped, an optional sign is accepted, and a plain decimal literal
`ddd`, `ddd.ddd`, `.ddd` or `ddd.` is parsed; every other string raises
(`none`).  (Exponent forms, `inf`/`nan` and underscore separators, which
CPython also accepts, do not occur in the payloads considered here and are
modelled as failures.) -/
def parsePyFloat (s : String) : Option ℚ :=
  let t := trimChars s.data
  let (neg, body) :=
    match t with
    | '-' :: rest => (true, rest)
    | '+' :: rest => (false, rest)
    | cs => (false, cs)
  let val? : Option ℚ :=
    match splitOnDot body with
    | [ip] =>
      if !ip.isEmpty && allDigits ip then some ((natOfDigits ip : ℚ)) else none
    | [ip, fp] =>
      if (!ip.isEmpty || !fp.isEmpty) && allDigits ip && allDigits fp then
        some ((natOfDigits ip : ℚ) + (natOfDigits fp : ℚ) / (10 ^ fp.length))
      else none
    | _ => none
  val?.map (fun v => if neg then -v else v)

/-- Models Python `float(x)` applied to a decoded JSON element: numbers map
to themselves, booleans to 0/1, numeric strings are parsed, and `None`,
lists, dicts and non-numeric strings raise (`none`). -/
def pyFloat : JVal → Option ℚ
  | .jnull => none
  | .jbool b => some (if b then 1 else 0)
  | .jnum q => some q
  | .jstr s => parsePyFloat s
  | .jarr => none
  | .jobj => none

/-- Python `max(a, b)` on numbers (used as `max(0.0, x)` clamps). -/
def pyMax (a b : ℚ) : ℚ := if a < b then b else a

/-! ## Open-Meteo daily fetchers (lines 346-398) -/

/-- The loop body shared by both Open-Meteo fetchers (lines 364-367 and
392-395): `max(0.0, float(x) / divisor)`, with `0.0` substituted when
`float` raises.  `floatConv` abstracts Python `float` on a decoded JSON
element; instantiate with `pyFloat`. -/
def convElem (floatConv : JVal → Option ℚ) (divisor : ℚ) (x : JVal) : ℚ :=
  match floatConv x with
  | some v => pyMax 0 (v / divisor)
  | none => 0

/-- The per-day conversion loop shared verbatim by
`fetch_open_meteo_snow_7d` (divisor 2.54, lines 362-370) and
`fetch_open_meteo_ice_7d` (divisor 25.4, lines 390-398): take the first 7
elements, convert each with `convElem`, pad with zeros on the right to
length 7, truncate to 7. -/
def convertDaily (floatConv : JVal → Option ℚ) (divisor : ℚ) (arr : List JVal) :
    List ℚ :=
  let daily_in := (arr.take 7).map (convElem floatConv divisor)
  (daily_in ++ List.replicate (7 - daily_in.length) 0).take 7

/-- `fetch_open_meteo_snow_7d` (lines 346-370) after the HTTP GET and JSON
decode: the input is the decoded `daily.snowfall_sum` array in centimeters
(`none` models both a missing key and a falsy value, which the `or` on line
360 replaces with `[0.0] * 7`); cm → inches via division by 2.54. -/
def fetch_open_meteo_snow_7d (floatConv : JVal → Option ℚ)
    (snowfall_sum : Option (List JVal)) : List ℚ :=
  convertDaily floatConv (127/50)
    (snowfall_sum.getD (List.replicate 7 (JVal.jnum 0)))

/-- `fetch_open_meteo_ice_7d` (lines 373-398) after the HTTP GET and JSON
decode: the input is the decoded `daily.freezing_rain_sum` array in
millimeters (`none` models a missing key or falsy value, replaced by
`[0.0] * 7` on line 389); mm → inches via division by 25.4. -/
def fetch_open_meteo_ice_7d (floatConv : JVal → Option ℚ)
    (freezing_rain_sum : Option (List JVal)) : List ℚ :=
  convertDaily floatConv (127/5)
    (freezing_rain_sum.getD (List.replicate 7 (JVal.jnum 0)))

/-- The ice-accumulation proxy rule exactly as the spec (§4.3 step 3) words
it, stated only so it can be compared with the source's
`fetch_open_meteo_ice_7d`.  The constants `ICE_PROXY_FACTOR` and
`ICE_PROXY_MAX_IN_PER_DAY` named by the spec do not occur anywhere in the
source, so they are parameters here. -/
def spec_ice_proxy_day (factor maxPerDay tmin_c precip_mm snow_in : ℚ) : ℚ :=
  if tmin_c > 0 ∨ precip_mm ≤ 0 then 0
  else if snow_in ≥ 1 then 0
  else pyMax 0 (min maxPerDay (precip_mm / (127/5) * factor))

/-! ## NWS gridpoint fetcher (lines 275-339) -/

/-- Line 298-299: meters → inches. -/
def meters_to_inches (m : ℚ) : ℚ := m * (393700787402 / 10000000000)

/-- `buckets[day] = buckets.get(day, 0.0) + float(value)` (line 314) on an
insertion-ordered association list (the model of a Python dict). -/
def addToBuckets : List (List Char × ℚ) → List Char → ℚ → List (List Char × ℚ)
  | [], day, v => [(day, v)]
  | (d, x) :: rest, day, v =>
    if d = day then (d, x + v) :: rest
    else (d, x) :: addToBuckets rest day v

/-- `buckets[d]` for a key known to be present (default 0 is never used on
the keys the caller passes). -/
def lookupBucket (bs : List (List Char × ℚ)) (day : List Char) : ℚ :=
  ((bs.find? (fun p => p.1 == day)).map Prod.snd).getD 0

/-- Lexicographic order on character lists, the order `sorted` uses on the
date strings. -/
def lexLe : List Char → List Char → Bool
  | [], _ => true
  | _ :: _, [] => false
  | a :: as, b :: bs => if a = b then lexLe as bs else decide (a < b)

/-- Insert into an ascending list (helper for the model of `sorted`). -/
def insertAsc (le : List Char → List Char → Bool) (a : List Char) :
    List (List Char) → List (List Char)
  | [] => [a]
  | b :: bs => if le a b then a :: b :: bs else b :: insertAsc le a bs

/-- Python `sorted` on the bucket keys (insertion sort; the keys are
distinct, so any correct ascending sort is the same function). -/
def sortAsc (le : List Char → List Char → Bool) :
    List (List Char) → List (List Char)
  | [] => []
  | a :: as => insertAsc le a (sortAsc le as)

/-- The date key of one grid value (line 312-313): the part of `validTime`
before the first `/`, truncated to its first 10 characters `YYYY-MM-DD`. -/
def dayKey (validTime : String) : List Char :=
  (validTime.data.takeWhile (fun c => c ≠ '/')).take 10

/-- `aggregate_daily` (lines 302-321): one grid value is a
`(validTime, value)` pair whose `value` may be null (skipped, line 309-310);
values are bucketed by date key, the first 7 distinct dates in ascending
order are kept, padded with zeros on the right to length 7 and truncated
to 7. -/
def aggregate_daily (vals : List (String × Option ℚ)) : List ℚ :=
  let buckets := vals.foldl
    (fun bs p =>
      match p.2 with
      | none => bs
      | some v => addToBuckets bs (dayKey p.1) v) []
  let days_sorted := sortAsc lexLe (buckets.map Prod.fst)
  let out := (days_sorted.take 7).map (lookupBucket buckets)
  (out ++ List.replicate (7 - out.length) 0).take 7

/-- `fetch_nws_grid_snow_ice_7d` (lines 275-339) after the two HTTP GETs:
the inputs are the decoded `snowfallAmount` and `iceAccumulation` series
(`none` models a missing or falsy series, and an empty `values` list is
also replaced by zeros, lines 327-335); each daily meter total is converted
with `max(0.0, meters_to_inches(x))` (lines 337-338). -/
def fetch_nws_grid_snow_ice_7d
    (snowfallAmount iceAccumulation : Option (List (String × Option ℚ))) :
    List ℚ × List ℚ :=
  let daily_snow_m :=
    match snowfallAmount with
    | none => List.replicate 7 0
    | some vals =>
      if vals.isEmpty then List.replicate 7 0 else aggregate_daily vals
  let daily_ice_m :=
    match iceAccumulation with
    | none => List.replicate 7 0
    | some vals =>
      if vals.isEmpty then List.replicate 7 0 else aggregate_daily vals
  (daily_snow_m.map (fun x => pyMax 0 (meters_to_inches x)),
   daily_ice_m.map (fun x => pyMax 0 (meters_to_inches x)))

/-! ## Data records (lines 131-174) -/

/-- `Site` (lines 131-142). -/
structure Site where
  site_name : String
  country : String
  prime_status : String
  lat : ℚ
  lon : ℚ
  site_code : String
  application : String
  bu : String
  address : String
  eccc_feed_url : String := ""
deriving DecidableEq, Repr

/-- `AlertItem` (lines 145-151). -/
structure AlertItem where
  title : String
  starts : Option String := none
  ends : Option String := none
  severity : Option String := none
  source : String := ""
deriving DecidableEq, Repr

/-- `SiteResult` (lines 154-174). -/
structure SiteResult where
  site_code : String
  site_name : String
  country : String
  prime_status : String
  lat : ℚ
  lon : ℚ
  alerts : List AlertItem
  snow_7d_in : ℚ
  ice_7d_in : ℚ
  daily_snow_in : List ℚ
  daily_ice_in : List ℚ
  risk_level : String
  risk_reason : String
  confidence : String
  address : String := ""
deriving DecidableEq, Repr

/-! ## Per-site evaluation (lines 597-658) and the batch loop (661-687)

Each network fetch the program performs for a site is modelled by its
outcome: `Except.ok` the decoded-and-converted result, `Except.error` the
message of the exception the Python call would raise.  `evaluate_site`
consumes these outcomes exactly the way the source consumes the calls —
wrapping some in `try/except` and others not. -/

/-- The outcome of each provider call for one site during one run. -/
structure Providers where
  nws_alerts : Except String (List AlertItem)
  eccc_alerts : Except String (List AlertItem)
  nws_grid : Except String (List ℚ × List ℚ)
  open_meteo_snow : Except String (List ℚ)
  open_meteo_ice : Except String (List ℚ)
deriving Repr

/-- Line 601: `site.country.strip().lower() in ["united states", "usa", "us"]`. -/
def isUS (site : Site) : Bool :=
  ["united states".data, "usa".data, "us".data].contains
    (lowerChars (trimChars site.country.data))

/-- Line 602: `site.country.strip().lower() in ["canada", "ca"]`. -/
def isCA (site : Site) : Bool :=
  ["canada".data, "ca".data].contains (lowerChars (trimChars site.country.data))

/-- `compute_totals` (lines 453-454). -/
def compute_totals (daily : List ℚ) : ℚ := daily.sum

/-- The `has_alerts` argument computed on line 640:
`len(alerts) > 0 and not any("fetch failed" in a.title.lower() for a in alerts)`. -/
def has_real_alerts (alerts : List AlertItem) : Bool :=
  decide (alerts.length > 0) &&
    !(alerts.any (fun a => containsFetchFailed a.title))

/-- The alerts block of `evaluate_site` (lines 604-615): both alert fetches
are wrapped in `try/except`, so a failure degrades to a single placeholder
item; a non-US non-Canada site (or a Canada site with no feed URL) keeps the
empty list. -/
def site_alerts (p : Providers) (site : Site) : List AlertItem :=
  if isUS site then
    match p.nws_alerts with
    | .ok as => as
    | .error e => [{ title := "(Alert fetch failed) " ++ e, source := "NWS" }]
  else if isCA site && !site.eccc_feed_url.isEmpty then
    match p.eccc_alerts with
    | .ok as => as
    | .error e =>
      [{ title := "(ECCC feed fetch failed) " ++ e, source := "ECCC(ATOM)" }]
  else []

/-- The accumulation block of `evaluate_site` (lines 617-635): for a US site
the NWS grid fetch is wrapped in `try/except` with the two Open-Meteo
fetches as fallback, but the fallback calls themselves are NOT wrapped; for
a non-US site the two Open-Meteo calls are made with no `try/except` at all.
An `Except.error` therefore propagates out exactly when an exception would
propagate out of `evaluate_site`.  The snow fetch runs before the ice fetch,
so its exception is the one that escapes when both would fail. -/
def accumulation_result (p : Providers) (site : Site) :
    Except String (List ℚ × List ℚ × String) :=
  if isUS site then
    match p.nws_grid with
    | .ok (ds, di) => .ok (ds, di, "HIGH")
    | .error _ =>
      match p.open_meteo_snow, p.open_meteo_ice with
      | .error e, _ => .error e
      | .ok _, .error e => .error e
      | .ok ds, .ok di => .ok (ds, di, "MEDIUM")
  else
    match p.open_meteo_snow, p.open_meteo_ice with
    | .error e, _ => .error e
    | .ok _, .error e => .error e
    | .ok ds, .ok di => .ok (ds, di, "MEDIUM")

/-- `evaluate_site` (lines 597-658). -/
def evaluate_site (cfg : Thresholds) (p : Providers) (site : Site) :
    Except String SiteResult :=
  let alerts := site_alerts p site
  match accumulation_result p site with
  | .error e => .error e
  | .ok (daily_snow_in, daily_ice_in, confidence) =>
    let snow_7d := compute_totals daily_snow_in
    let ice_7d := compute_totals daily_ice_in
    let lvlReason := classify_risk cfg snow_7d ice_7d (has_real_alerts alerts)
    .ok
      { site_code := site.site_code
        site_name := site.site_name
        country := site.country
        prime_status := site.prime_status
        lat := site.lat
        lon := site.lon
        alerts := alerts
        snow_7d_in := snow_7d
        ice_7d_in := ice_7d
        daily_snow_in := daily_snow_in
        daily_ice_in := daily_ice_in
        risk_level := lvlReason.1
        risk_reason := lvlReason.2
        confidence := confidence
        address := site.address }

/-- The synthetic result `main` substitutes when a site's evaluation raises
(lines 668-687). -/
def site_failure_result (s : Site) (e : String) : SiteResult :=
  { site_code := s.site_code
    site_name := s.site_name
    country := s.country
    prime_status := s.prime_status
    lat := s.lat
    lon := s.lon
    alerts := [{ title := "(Site evaluation failed) " ++ e, source := "SYSTEM" }]
    snow_7d_in := 0
    ice_7d_in := 0
    daily_snow_in := List.replicate 7 0
    daily_ice_in := List.replicate 7 0
    risk_level := "WARNING"
    risk_reason := "Site evaluation error (treat as warning until resolved)"
    confidence := "MEDIUM"
    address := s.address }

/-- One iteration of the batch loop in `main` (lines 665-687). -/
def handle_site (evalR : Site → Except String SiteResult) (s : Site) :
    SiteResult :=
  match evalR s with
  | .ok r => r
  | .error e => site_failure_result s e

/-- The batch loop of `main` (lines 665-687): one result is appended per
site, in order. -/
def run_batch (evalR : Site → Except String SiteResult) (sites : List Site) :
    List SiteResult :=
  sites.map (handle_site evalR)

/-! ## Concrete inputs used by counterexamples and witnesses -/

/-- A concrete US site (row 2 of the embedded `SITES_CSV`). -/
def gcfcSite : Site :=
  { site_name := "Greater Chicago Fulfillment Center - GCFC"
    country := "United States"
    prime_status := "Active"
    lat := 41430267/1000000
    lon := -88426704/1000000
    site_code := "D488"
    application := "PrIME"
    bu := "NA SMO"
    address := "222 Airport Road, Morris, Illinois 60450"
    eccc_feed_url := "" }

/-- Provider outcomes for a run in which the NWS grid call and both
Open-Meteo fallback calls exhaust their retries (the fetchers raise
`RuntimeError("GET JSON failed: ...")`, lines 191/204) while the alert call
succeeds with no active alerts. -/
def allAccumFail : Providers :=
  { nws_alerts := .ok []
    eccc_alerts := .ok []
    nws_grid := .error "GET JSON failed: https://api.weather.gov/points :: timeout"
    open_meteo_snow := .error "GET JSON failed: https://api.open-meteo.com/v1/forecast :: timeout"
    open_meteo_ice := .error "GET JSON failed: https://api.open-meteo.com/v1/forecast :: timeout" }

/-- Provider outcomes for a fully successful US run. -/
def okProviders : Providers :=
  { nws_alerts := .ok [{ title := "Winter Storm Warning", severity := some "Severe", source := "NWS" }]
    eccc_alerts := .ok []
    nws_grid := .ok ([1/2, 0, 0, 0, 0, 0, 0], [0, 0, 0, 0, 0, 0, 0])
    open_meteo_snow := .ok [0, 0, 0, 0, 0, 0, 0]
    open_meteo_ice := .ok [0, 0, 0, 0, 0, 0, 0] }

/-- An evaluation function that raises on every site (for isolation tests). -/
def evalBoom : Site → Except String SiteResult := fun _ => Except.error "boom"

/-! ## Helper lemmas -/

theorem pyMax_zero_nonneg (y : ℚ) : 0 ≤ pyMax 0 y := by
  unfold pyMax
  split
  · linarith
  · exact le_refl 0

theorem convElem_nonneg (fc : JVal → Option ℚ) (d : ℚ) (x : JVal) :
    0 ≤ convElem fc d x := by
  unfold convElem
  cases fc x
  · exact le_refl 0
  · exact pyMax_zero_nonneg _

/-- Normal form of the conversion loop: first-7 conversion followed by a
zero pad on the right. -/
theorem convertDaily_eq (fc : JVal → Option ℚ) (d : ℚ) (xs : List JVal) :
    convertDaily fc d xs =
      (xs.take 7).map (convElem fc d) ++
        List.replicate (7 - min 7 xs.length) 0 := by
  simp only [convertDaily]
  rw [List.take_of_length_le]
  · simp [List.length_map, List.length_take]
  · simp [List.length_append, List.length_map, List.length_take,
      List.length_replicate]

theorem convertDaily_length (fc : JVal → Option ℚ) (d : ℚ) (xs : List JVal) :
    (convertDaily fc d xs).length = 7 := by
  simp [convertDaily, List.length_take, List.length_append, List.length_map,
    List.length_replicate]

theorem convertDaily_nonneg (fc : JVal → Option ℚ) (d : ℚ) (xs : List JVal) :
    ∀ x ∈ convertDaily fc d xs, 0 ≤ x := by
  intro x hx
  rw [convertDaily_eq] at hx
  rcases List.mem_append.1 hx with h | h
  · obtain ⟨y, -, rfl⟩ := List.mem_map.1 h
    exact convElem_nonneg fc d y
  · rw [List.eq_of_mem_replicate h]

theorem aggregate_daily_length (vals : List (String × Option ℚ)) :
    (aggregate_daily vals).length = 7 := by
  simp [aggregate_daily, List.length_take, List.length_append,
    List.length_map, List.length_replicate]

theorem grid_map_nonneg (l : List ℚ) :
    ∀ x ∈ l.map (fun y => pyMax 0 (meters_to_inches y)), 0 ≤ x := by
  intro x hx
  obtain ⟨y, -, rfl⟩ := List.mem_map.1 hx
  exact pyMax_zero_nonneg _

theorem fetch_grid_fst_length
    (a b : Option (List (String × Option ℚ))) :
    (fetch_nws_grid_snow_ice_7d a b).1.length = 7 := by
  unfold fetch_nws_grid_snow_ice_7d
  cases a with
  | none => simp
  | some vals =>
    by_cases hv : vals.isEmpty <;>
      simp [hv, aggregate_daily_length]

theorem fetch_grid_snd_length
    (a b : Option (List (String × Option ℚ))) :
    (fetch_nws_grid_snow_ice_7d a b).2.length = 7 := by
  unfold fetch_nws_grid_snow_ice_7d
  cases b with
  | none => simp
  | some vals =>
    by_cases hv : vals.isEmpty <;>
      simp [hv, aggregate_daily_length]

theorem fetch_grid_fst_nonneg
    (a b : Option (List (String × Option ℚ))) :
    ∀ x ∈ (fetch_nws_grid_snow_ice_7d a b).1, 0 ≤ x := by
  unfold fetch_nws_grid_snow_ice_7d
  cases a with
  | none => exact grid_map_nonneg _
  | some vals =>
    by_cases hv : vals.isEmpty <;> simp only [hv] <;> exact grid_map_nonneg _

theorem fetch_grid_snd_nonneg
    (a b : Option (List (String × Option ℚ))) :
    ∀ x ∈ (fetch_nws_grid_snow_ice_7d a b).2, 0 ≤ x := by
  unfold fetch_nws_grid_snow_ice_7d
  cases b with
  | none => exact grid_map_nonneg _
  | some vals =>
    by_cases hv : vals.isEmpty <;> simp only [hv] <;> exact grid_map_nonneg _

/-- Inversion: a successful `evaluate_site` stores as totals exactly the
sums of the daily series it stores. -/
theorem evaluate_site_ok_totals (cfg : Thresholds) (p : Providers)
    (site : Site) (r : SiteResult) (h : evaluate_site cfg p site = .ok r) :
    r.snow_7d_in = r.daily_snow_in.sum ∧ r.ice_7d_in = r.daily_ice_in.sum := by
  unfold evaluate_site at h
  cases hacc : accumulation_result p site with
  | error e =>
    rw [hacc] at h
    exact absurd h (by simp)
  | ok t =>
    obtain ⟨ds, di, conf⟩ := t
    rw [hacc] at h
    simp only [Except.ok.injEq] at h
    subst h
    exact ⟨rfl, rfl⟩

end WeatherMonitor

namespace WeatherMonitor

/-- C1 counterexample: at the concrete input `(0, 0, has_alerts = true)` the
code classifies as WARNING, but the reason string it returns is
`"Active official alert(s) present"` (capital `A`, line 239), not the
claimed `"active official alert(s) present"`. -/
theorem c1_counterexample :
    (classify_risk defaultThresholds 0 0 true).1 = "WARNING" ∧
    (classify_risk defaultThresholds 0 0 true).2 =
      "Active official alert(s) present" ∧
    (classify_risk defaultThresholds 0 0 true).2 ≠
      "active official alert(s) present" := by
  refine ⟨rfl, rfl, ?_⟩
  decide

/-- C1 (amended): for every configuration and every pair of accumulation
totals, including zero and negative values, `classify_risk` with
`has_alerts = true` returns the WARNING tier with reason
"Active official alert(s) present"; alert presence never yields CRITICAL
and is never downgraded below WARNING by low accumulation. -/
theorem c1_alerts_always_warning (cfg : Thresholds) (snow_in ice_in : ℚ) :
    classify_risk cfg snow_in ice_in true =
      ("WARNING", "Active official alert(s) present") := by
  rfl

/-- C2: with `has_alerts = false` the classifier evaluates thresholds in
descending severity with first match winning: the result is CRITICAL exactly
when a critical threshold is met, WARNING exactly when no critical threshold
but a warning threshold is met, HEADSUP exactly when no higher threshold but
a heads-up threshold is met, and NONE otherwise; with the default thresholds,
`(8.5, 0, false)` yields CRITICAL with reason
"Forecast accumulation exceeds critical threshold" and `(0, 0.06, false)`
yields HEADSUP. -/
theorem c2_threshold_cascade (cfg : Thresholds) (snow_in ice_in : ℚ) :
    ((classify_risk cfg snow_in ice_in false).1 = "CRITICAL" ↔
      (snow_in ≥ cfg.snowCritical ∨ ice_in ≥ cfg.iceCritical)) ∧
    ((classify_risk cfg snow_in ice_in false).1 = "WARNING" ↔
      (¬(snow_in ≥ cfg.snowCritical ∨ ice_in ≥ cfg.iceCritical) ∧
        (snow_in ≥ cfg.snowWarning ∨ ice_in ≥ cfg.iceWarning))) ∧
    ((classify_risk cfg snow_in ice_in false).1 = "HEADSUP" ↔
      (¬(snow_in ≥ cfg.snowCritical ∨ ice_in ≥ cfg.iceCritical) ∧
        ¬(snow_in ≥ cfg.snowWarning ∨ ice_in ≥ cfg.iceWarning) ∧
        (snow_in ≥ cfg.snowHeadsup ∨ ice_in ≥ cfg.iceHeadsup))) ∧
    ((classify_risk cfg snow_in ice_in false).1 = "NONE" ↔
      (¬(snow_in ≥ cfg.snowCritical ∨ ice_in ≥ cfg.iceCritical) ∧
        ¬(snow_in ≥ cfg.snowWarning ∨ ice_in ≥ cfg.iceWarning) ∧
        ¬(snow_in ≥ cfg.snowHeadsup ∨ ice_in ≥ cfg.iceHeadsup))) ∧
    classify_risk defaultThresholds (17/2) 0 false =
      ("CRITICAL", "Forecast accumulation exceeds critical threshold") ∧
    (classify_risk defaultThresholds 0 (3/50) false).1 = "HEADSUP" := by
  unfold classify_risk
  refine ⟨?_, ?_, ?_, ?_, by norm_num [defaultThresholds], by norm_num [defaultThresholds]⟩ <;>
    split_ifs <;> simp_all

/-- C9: the classifier is monotonic for any threshold configuration when
`has_alerts = false`: raising either accumulation total (here both at once,
which subsumes raising one while holding the other fixed) never decreases
the tier under the order NONE < HEADSUP < WARNING < CRITICAL realised by
`riskRank`. -/
theorem c9_classifier_monotone (cfg : Thresholds) (snow snow' ice ice' : ℚ)
    (hs : snow ≤ snow') (hi : ice ≤ ice') :
    riskRank (classify_risk cfg snow ice false).1 ≤
      riskRank (classify_risk cfg snow' ice' false).1 := by
  unfold classify_risk
  split_ifs <;> first
    | decide
    | (exfalso
       push_neg at *
       casesm* _ ∨ _, _ ∧ _ <;> linarith)

/-- C9 witness: at the default thresholds, `1 ≤ 9` inches of snow with ice
fixed at 0 yields a non-decreasing rank. -/
theorem c9_witness :
    riskRank (classify_risk defaultThresholds 1 0 false).1 ≤
      riskRank (classify_risk defaultThresholds 9 0 false).1 :=
  c9_classifier_monotone defaultThresholds 1 9 0 0 (by norm_num) le_rfl

/-- C3 counterexample: with the NWS grid call and both Open-Meteo fallback
calls failing, `evaluate_site` on a US site does NOT absorb the failure —
the fallback's exception propagates out (the `Except.error` result), so the
operation can raise for a reachable input. -/
theorem c3_counterexample :
    evaluate_site defaultThresholds allAccumFail gcfcSite =
      .error "GET JSON failed: https://api.open-meteo.com/v1/forecast :: timeout" := by
  rfl

/-- C3 (amended): `evaluate_site` absorbs alert-source failures and NWS-grid
failures, but an exception of the daily-forecast fallback provider (invoked
after a grid failure for a US site, or unconditionally for a non-US site)
propagates out of `evaluate_site`.  Precisely: the evaluation succeeds iff
the site is US with a successful grid fetch, or both Open-Meteo fetches
succeed — the alert outcomes never matter. -/
theorem c3_amended_raise_exactly_on_fallback (cfg : Thresholds)
    (p : Providers) (site : Site) :
    (evaluate_site cfg p site).isOk =
      (isUS site && p.nws_grid.isOk ||
        (p.open_meteo_snow.isOk && p.open_meteo_ice.isOk)) := by
  obtain ⟨na, ea, ng, os, oi⟩ := p
  unfold evaluate_site accumulation_result
  cases hu : isUS site <;>
    rcases ng with e | ⟨ds, di⟩ <;>
    rcases os with es | s7 <;>
    rcases oi with ei | i7 <;>
    simp [Except.isOk, Except.toBool]

/-- C4 counterexample: when the daily-forecast fallback itself fails for a
US site, the result actually produced (by the batch-level handler, since
`evaluate_site` raises) carries confidence "MEDIUM" — not the claimed
"LOW" — and its only alert's title does not contain the "fetch failed"
marker.  The all-zero series part of the claim does hold. -/
theorem c4_counterexample :
    (handle_site (evaluate_site defaultThresholds allAccumFail) gcfcSite).confidence =
      "MEDIUM" ∧
    (handle_site (evaluate_site defaultThresholds allAccumFail) gcfcSite).confidence ≠
      "LOW" ∧
    (handle_site (evaluate_site defaultThresholds allAccumFail) gcfcSite).daily_snow_in =
      List.replicate 7 0 ∧
    (handle_site (evaluate_site defaultThresholds allAccumFail) gcfcSite).daily_ice_in =
      List.replicate 7 0 ∧
    ((handle_site (evaluate_site defaultThresholds allAccumFail) gcfcSite).alerts.any
      fun a => containsFetchFailed a.title) = false ∧
    ((handle_site (evaluate_site defaultThresholds allAccumFail) gcfcSite).alerts.length = 1) := by
  refine ⟨rfl, by decide, rfl, rfl, by decide, rfl⟩

/-- C4 (amended): if the daily-forecast fallback fails, `evaluate_site`
raises, and the batch-level handler substitutes a result with both daily
series all-zero, confidence "MEDIUM" (the code has no "LOW" grade), risk
tier WARNING chosen directly (without consulting `has_real_alerts`), and a
single placeholder alert titled `"(Site evaluation failed) " ++ e` tagged
SYSTEM. -/
theorem c4_amended_fallback_failure (cfg : Thresholds) (p : Providers)
    (s : Site) (e : String) (h : evaluate_site cfg p s = .error e) :
    handle_site (evaluate_site cfg p) s = site_failure_result s e ∧
    (site_failure_result s e).daily_snow_in = List.replicate 7 0 ∧
    (site_failure_result s e).daily_ice_in = List.replicate 7 0 ∧
    (site_failure_result s e).confidence = "MEDIUM" ∧
    (site_failure_result s e).risk_level = "WARNING" ∧
    (site_failure_result s e).alerts =
      [{ title := "(Site evaluation failed) " ++ e, starts := none,
         ends := none, severity := none, source := "SYSTEM" }] := by
  refine ⟨?_, rfl, rfl, rfl, rfl, rfl⟩
  unfold handle_site
  rw [h]

/-- C4 witness: the amended statement at the concrete failing run. -/
theorem c4_witness :
    handle_site (evaluate_site defaultThresholds allAccumFail) gcfcSite =
      site_failure_result gcfcSite
        "GET JSON failed: https://api.open-meteo.com/v1/forecast :: timeout" ∧
    (site_failure_result gcfcSite
      "GET JSON failed: https://api.open-meteo.com/v1/forecast :: timeout").daily_snow_in =
      List.replicate 7 0 ∧
    (site_failure_result gcfcSite
      "GET JSON failed: https://api.open-meteo.com/v1/forecast :: timeout").daily_ice_in =
      List.replicate 7 0 ∧
    (site_failure_result gcfcSite
      "GET JSON failed: https://api.open-meteo.com/v1/forecast :: timeout").confidence =
      "MEDIUM" ∧
    (site_failure_result gcfcSite
      "GET JSON failed: https://api.open-meteo.com/v1/forecast :: timeout").risk_level =
      "WARNING" ∧
    (site_failure_result gcfcSite
      "GET JSON failed: https://api.open-meteo.com/v1/forecast :: timeout").alerts =
      [{ title := "(Site evaluation failed) " ++
          "GET JSON failed: https://api.open-meteo.com/v1/forecast :: timeout",
         starts := none, ends := none, severity := none, source := "SYSTEM" }] :=
  c4_amended_fallback_failure defaultThresholds allAccumFail gcfcSite
    "GET JSON failed: https://api.open-meteo.com/v1/forecast :: timeout" rfl

/-- C5 counterexample: on a day whose decoded `freezing_rain_sum` element is
25.4 mm, the code's ice estimate is 1.0 inch — computed from the freezing
rain figure alone (the function fetches neither temperature nor
precipitation nor snow) — whereas the claimed proxy rule demands 0 on any
day with minimum temperature above 0 °C (here 5 °C, factor and cap
instantiated arbitrarily since no such constants exist in the source). -/
theorem c5_counterexample :
    fetch_open_meteo_ice_7d pyFloat (some [JVal.jnum (127/5)]) =
      [1, 0, 0, 0, 0, 0, 0] ∧
    spec_ice_proxy_day 1 (1/10) 5 (127/5) 0 = 0 ∧
    (1 : ℚ) ≠ 0 := by
  refine ⟨?_, by norm_num [spec_ice_proxy_day], by norm_num⟩
  norm_num [fetch_open_meteo_ice_7d, convertDaily, convElem, pyFloat, pyMax,
    List.replicate]

/-- C5 (amended): in the daily-forecast fallback the per-day ice estimate is
derived solely from that day's `freezing_rain_sum` element: it equals
`max(0, mm / 25.4)` inches when the element parses as a number `mm` and `0`
otherwise; no temperature, precipitation or same-day snow enters, and no
`ICE_PROXY_FACTOR` or per-day cap exists. -/
theorem c5_amended_ice_is_plain_conversion (floatConv : JVal → Option ℚ)
    (arr : List JVal) (j : ℕ) (m : ℚ) (hj : j < 7) (hlen : j < arr.length) :
    (fetch_open_meteo_ice_7d floatConv (some arr))[j]? =
      some (convElem floatConv (127/5) (arr.get ⟨j, hlen⟩)) ∧
    convElem pyFloat (127/5) (JVal.jnum m) = pyMax 0 (m / (127/5)) := by
  refine ⟨?_, rfl⟩
  unfold fetch_open_meteo_ice_7d
  simp only [Option.getD_some]
  rw [convertDaily_eq]
  have hl : j < ((arr.take 7).map (convElem floatConv (127/5))).length := by
    simp [List.length_map, List.length_take]
    omega
  rw [List.getElem?_append, if_pos hl, List.getElem?_map, List.getElem?_take,
    if_pos hj, List.getElem?_eq_getElem hlen]
  rfl

/-- C5 witness: the amended per-day rule at day 0 of a concrete one-element
array holding 25.4 mm of freezing rain. -/
theorem c5_witness :
    (fetch_open_meteo_ice_7d pyFloat (some [JVal.jnum (127/5)]))[0]? =
      some (convElem pyFloat (127/5) ([JVal.jnum (127/5)].get ⟨0, by norm_num⟩)) ∧
    convElem pyFloat (127/5) (JVal.jnum (127/5)) = pyMax 0 ((127/5) / (127/5)) :=
  c5_amended_ice_is_plain_conversion pyFloat [JVal.jnum (127/5)] 0 (127/5)
    (by norm_num) (by norm_num)

/-- C6: the batch loop yields exactly one result per site; a site whose
evaluation raises is replaced by the synthetic WARNING-tier result with the
explanatory placeholder alert; and the result at any position depends only
on that site's own evaluation, so one malfunctioning site leaves every
other site's result unchanged. -/
theorem c6_batch_isolation (f g : Site → Except String SiteResult)
    (sites : List Site) (s : Site) (e : String) (j : ℕ)
    (hf : f s = .error e) (hj : j < sites.length) :
    (run_batch f sites).length = sites.length ∧
    handle_site f s = site_failure_result s e ∧
    (site_failure_result s e).risk_level = "WARNING" ∧
    (site_failure_result s e).alerts =
      [{ title := "(Site evaluation failed) " ++ e, starts := none,
         ends := none, severity := none, source := "SYSTEM" }] ∧
    (run_batch f sites)[j]? = some (handle_site f (sites.get ⟨j, hj⟩)) ∧
    (f (sites.get ⟨j, hj⟩) = g (sites.get ⟨j, hj⟩) →
      (run_batch f sites)[j]? = (run_batch g sites)[j]?) := by
  refine ⟨by simp [run_batch], ?_, rfl, rfl, ?_, ?_⟩
  · unfold handle_site
    rw [hf]
  · simp only [run_batch, List.getElem?_map, List.getElem?_eq_getElem hj]
    rfl
  · intro hfg
    simp only [run_batch, List.getElem?_map, List.getElem?_eq_getElem hj,
      Option.map_some']
    congr 1
    unfold handle_site
    have hfg2 : f sites[j] = g sites[j] := hfg
    rw [hfg2]

/-- C6 witness: a one-site batch whose evaluation raises `"boom"`. -/
theorem c6_witness :
    (run_batch evalBoom [gcfcSite]).length = [gcfcSite].length ∧
    handle_site evalBoom gcfcSite = site_failure_result gcfcSite "boom" ∧
    (site_failure_result gcfcSite "boom").risk_level = "WARNING" ∧
    (site_failure_result gcfcSite "boom").alerts =
      [{ title := "(Site evaluation failed) " ++ "boom", starts := none,
         ends := none, severity := none, source := "SYSTEM" }] ∧
    (run_batch evalBoom [gcfcSite])[0]? =
      some (handle_site evalBoom ([gcfcSite].get ⟨0, by norm_num⟩)) ∧
    (run_batch evalBoom [gcfcSite])[0]? = (run_batch evalBoom [gcfcSite])[0]? := by
  obtain ⟨h1, h2, h3, h4, h5, h6⟩ :=
    c6_batch_isolation evalBoom evalBoom [gcfcSite] gcfcSite "boom" 0 rfl
      (by norm_num)
  exact ⟨h1, h2, h3, h4, h5, h6 rfl⟩

/-- C7: every `SiteResult` the batch evaluation produces — a successful
per-site evaluation or the batch-level synthetic failure result alike —
has `snow_7d_in` equal to the sum of `daily_snow_in` and `ice_7d_in` equal
to the sum of `daily_ice_in`, within tolerance `1e-6` (the model is exact,
so the difference is 0). -/
theorem c7_totals_invariant (cfg : Thresholds) (p : Providers)
    (sites : List Site) (r : SiteResult)
    (hr : r ∈ run_batch (evaluate_site cfg p) sites) :
    |r.snow_7d_in - r.daily_snow_in.sum| ≤ 1/1000000 ∧
    |r.ice_7d_in - r.daily_ice_in.sum| ≤ 1/1000000 := by
  simp only [run_batch] at hr
  obtain ⟨s, -, rfl⟩ := List.mem_map.1 hr
  unfold handle_site
  cases hes : evaluate_site cfg p s with
  | error e =>
    constructor <;> simp [site_failure_result, List.sum_replicate]
  | ok res =>
    obtain ⟨h1, h2⟩ := evaluate_site_ok_totals cfg p s res hes
    rw [h1, h2]
    constructor <;> simp

/-- C7 witness: the invariant at a concrete successful US run. -/
theorem c7_witness :
    |(handle_site (evaluate_site defaultThresholds okProviders) gcfcSite).snow_7d_in -
        (handle_site (evaluate_site defaultThresholds okProviders) gcfcSite).daily_snow_in.sum| ≤
      1/1000000 ∧
    |(handle_site (evaluate_site defaultThresholds okProviders) gcfcSite).ice_7d_in -
        (handle_site (evaluate_site defaultThresholds okProviders) gcfcSite).daily_ice_in.sum| ≤
      1/1000000 :=
  c7_totals_invariant defaultThresholds okProviders [gcfcSite]
    (handle_site (evaluate_site defaultThresholds okProviders) gcfcSite)
    (by simp [run_batch])

/-- C8: every daily series any accumulation path produces — the two
Open-Meteo daily fetchers on arbitrary decoded arrays, both components of
the NWS grid fetcher on arbitrary decoded series, and the failure-default
series — has exactly 7 elements, each non-negative (negative values are
clamped by `max(0.0, ·)`); and the shared conversion loop truncates to the
first 7 provider days and pads with zeros on the right when fewer than 7
were returned. -/
theorem c8_series_shape (floatConv : JVal → Option ℚ) (d : ℚ)
    (snowArr iceArr : Option (List JVal))
    (snowSeries iceSeries : Option (List (String × Option ℚ)))
    (xs : List JVal) (s : Site) (e : String) :
    (fetch_open_meteo_snow_7d floatConv snowArr).length = 7 ∧
    (∀ x ∈ fetch_open_meteo_snow_7d floatConv snowArr, 0 ≤ x) ∧
    (fetch_open_meteo_ice_7d floatConv iceArr).length = 7 ∧
    (∀ x ∈ fetch_open_meteo_ice_7d floatConv iceArr, 0 ≤ x) ∧
    (fetch_nws_grid_snow_ice_7d snowSeries iceSeries).1.length = 7 ∧
    (∀ x ∈ (fetch_nws_grid_snow_ice_7d snowSeries iceSeries).1, 0 ≤ x) ∧
    (fetch_nws_grid_snow_ice_7d snowSeries iceSeries).2.length = 7 ∧
    (∀ x ∈ (fetch_nws_grid_snow_ice_7d snowSeries iceSeries).2, 0 ≤ x) ∧
    convertDaily floatConv d xs =
      (xs.take 7).map (convElem floatConv d) ++
        List.replicate (7 - min 7 xs.length) 0 ∧
    (site_failure_result s e).daily_snow_in.length = 7 ∧
    (site_failure_result s e).daily_ice_in.length = 7 :=
  ⟨convertDaily_length _ _ _, convertDaily_nonneg _ _ _,
   convertDaily_length _ _ _, convertDaily_nonneg _ _ _,
   fetch_grid_fst_length _ _, fetch_grid_fst_nonneg _ _,
   fetch_grid_snd_length _ _, fetch_grid_snd_nonneg _ _,
   convertDaily_eq _ _ _,
   by simp [site_failure_result], by simp [site_failure_result]⟩

/-- C8 witness: the shape facts instantiated at a concrete one-element
(null) snowfall array, with the non-negativity clause applied to the
element 0 of the resulting series. -/
theorem c8_witness :
    (fetch_open_meteo_snow_7d pyFloat (some [JVal.jnull])).length = 7 ∧
    (0:ℚ) ≤ 0 ∧
    convertDaily pyFloat (127/50) [JVal.jnull] =
      ([JVal.jnull].take 7).map (convElem pyFloat (127/50)) ++
        List.replicate (7 - min 7 [JVal.jnull].length) 0 := by
  obtain ⟨h1, h2, h3, h4, h5, h6, h7, h8, h9, h10, h11⟩ :=
    c8_series_shape pyFloat (127/50) (some [JVal.jnull]) (some [JVal.jnull])
      none none [JVal.jnull] gcfcSite "x"
  exact ⟨h1, h2 0 (List.mem_cons_self _ _), h9⟩

/-- C10: the per-element conversion step of the Open-Meteo fetchers never
fails: an element on which `float` raises (`none`) — in particular a null,
an array, an object, or a non-numeric string — converts to `0.0`, and on
every decoded payload whatsoever the fetchers still return a 7-element
non-negative series. -/
theorem c10_conversion_total (floatConv : JVal → Option ℚ)
    (arr : Option (List JVal)) (x : JVal) (hx : floatConv x = none) :
    convElem floatConv (127/50) x = 0 ∧
    convElem floatConv (127/5) x = 0 ∧
    pyFloat JVal.jnull = none ∧
    pyFloat JVal.jarr = none ∧
    pyFloat JVal.jobj = none ∧
    pyFloat (JVal.jstr "N/A") = none ∧
    (fetch_open_meteo_snow_7d floatConv arr).length = 7 ∧
    (∀ y ∈ fetch_open_meteo_snow_7d floatConv arr, 0 ≤ y) ∧
    (fetch_open_meteo_ice_7d floatConv arr).length = 7 ∧
    (∀ y ∈ fetch_open_meteo_ice_7d floatConv arr, 0 ≤ y) := by
  refine ⟨?_, ?_, rfl, rfl, rfl, by decide, convertDaily_length _ _ _,
    convertDaily_nonneg _ _ _, convertDaily_length _ _ _,
    convertDaily_nonneg _ _ _⟩
  · unfold convElem
    rw [hx]
  · unfold convElem
    rw [hx]

/-- C10 witness: the conversion facts at a concrete array holding one
element of each failing shape. -/
theorem c10_witness :
    convElem pyFloat (127/50) JVal.jnull = 0 ∧
    convElem pyFloat (127/5) JVal.jnull = 0 ∧
    pyFloat JVal.jnull = none ∧
    pyFloat JVal.jarr = none ∧
    pyFloat JVal.jobj = none ∧
    pyFloat (JVal.jstr "N/A") = none ∧
    (fetch_open_meteo_snow_7d pyFloat
      (some [JVal.jnull, JVal.jarr, JVal.jobj, JVal.jstr "N/A"])).length = 7 ∧
    (0:ℚ) ≤ 0 ∧
    (fetch_open_meteo_ice_7d pyFloat
      (some [JVal.jnull, JVal.jarr, JVal.jobj, JVal.jstr "N/A"])).length = 7 ∧
    (0:ℚ) ≤ 0 := by
  obtain ⟨h1, h2, h3, h4, h5, h6, h7, h8, h9, h10⟩ :=
    c10_conversion_total pyFloat
      (some [JVal.jnull, JVal.jarr, JVal.jobj, JVal.jstr "N/A"]) JVal.jnull rfl
  exact ⟨h1, h2, h3, h4, h5, h6, h7, h8 0 (List.mem_cons_self _ _), h9,
    h10 0 (List.mem_cons_self _ _)⟩

end WeatherMonitor
